import Mathlib

/-!
Shallow embedding of `check_forecast.py`, the single source file of the
kitesurfing forecast alert tool, together with proofs about the claims of
its specification.  Pure logic (unit conversion, per-day aggregation,
run detection) is translated directly; the two effectful boundaries
(HTTP fetch, SMTP session) are abstracted by explicit parameters and an
event trace, so that the orchestration in `main` becomes a pure function
from those parameters to the list of observable actions and the exit
outcome of the process.
-/

/-- An hourly timestamp from the forecast feed.  The analysis only ever uses
the calendar date a timestamp falls on (`datetime.fromisoformat(t_iso).date()`
in the source), so a timestamp is modelled by that date, encoded as a day
number. -/
structure HourlyTime where
  date : Int
deriving DecidableEq, Repr

/-- The forecast payload: the two parallel hourly arrays
`data["hourly"]["time"]` and `data["hourly"]["windspeed_10m"]`.
Speeds are metres per second, modelled as exact rationals. -/
structure ForecastData where
  time : List HourlyTime
  windspeed_10m : List ℚ
deriving DecidableEq, Repr

/-- Configuration as produced by `load_env`.  Numeric thresholds keep their
source types (floats as rationals, counts as naturals); the SMTP and e-mail
fields are optional strings, `none` standing for an unset environment
variable. -/
structure Config where
  minWindKnots : ℚ
  maxWindKnots : ℚ
  minHoursPerDay : Nat
  requiredConsecutiveDays : Nat
  forecastDays : Nat
  smtpHost : Option String
  smtpPort : Option Nat
  smtpUser : Option String
  smtpPassword : Option String
  emailFrom : Option String
  emailTo : Option String
deriving DecidableEq, Repr

/-- The numeric defaults of `load_env`, with no SMTP environment set. -/
def defaultConfig : Config :=
  { minWindKnots := 12, maxWindKnots := 30, minHoursPerDay := 6,
    requiredConsecutiveDays := 2, forecastDays := 7,
    smtpHost := none, smtpPort := none, smtpUser := none,
    smtpPassword := none, emailFrom := none, emailTo := none }

/-- Source: `def mps_to_knots(mps): return mps * 1.94384449`. -/
def mps_to_knots (mps : ℚ) : ℚ :=
  mps * 1.94384449

/-- The per-reading qualification test of `analyze_forecast`:
`ok = cfg["MIN_WIND_KNOTS"] <= kts <= cfg["MAX_WIND_KNOTS"]`
(a chained comparison, inclusive at both ends). -/
def readingQualifies (cfg : Config) (sp : ℚ) : Bool :=
  decide (cfg.minWindKnots ≤ mps_to_knots sp) && decide (mps_to_knots sp ≤ cfg.maxWindKnots)

/-- The `day_hours` dictionary of `analyze_forecast`, built by
`day_hours.setdefault(date, 0); if ok: day_hours[date] += 1` over the zipped
`(time, speed)` pairs.  A Python dict keyed by dates is modelled as a partial
map `Int → Option Nat`; `none` means the date never appeared among the
readings. -/
def dayHours (readings : List (HourlyTime × ℚ)) (cfg : Config) : Int → Option Nat :=
  readings.foldl
    (fun m r =>
      let date := r.1.date
      let ok := readingQualifies cfg r.2
      fun d => if d = date then some ((m date).getD 0 + (if ok then 1 else 0)) else m d)
    (fun _ => none)

/-- The `ordered` list of `analyze_forecast`:
`[(today + timedelta(days=i), day_hours.get(d, 0)) for i in range(cfg["FORECAST_DAYS"])]`. -/
def buildOrdered (day_hours : Int → Option Nat) (today : Int) (n : Nat) : List (Int × Nat) :=
  (List.range n).map (fun (i : Nat) => (today + (i : Int), (day_hours (today + (i : Int))).getD 0))

/-- The run-detection loop of `analyze_forecast`, carrying the `runs` and
`current` accumulators exactly as the Python `for` loop does, and returning
both at loop exit. -/
def runsLoop (minH : Nat) :
    List (Int × Nat) → List (List (Int × Nat)) → List (Int × Nat) →
    List (List (Int × Nat)) × List (Int × Nat)
  | [], runs, current => (runs, current)
  | dh :: rest, runs, current =>
    if minH ≤ dh.2 then runsLoop minH rest runs (current ++ [dh])
    else if current.isEmpty then runsLoop minH rest runs current
    else runsLoop minH rest (runs ++ [current]) []

/-- The trailing `if current: runs.append(list(current))` flush after the
loop. -/
def finishRuns (p : List (List (Int × Nat)) × List (Int × Nat)) : List (List (Int × Nat)) :=
  if p.2.isEmpty then p.1 else p.1 ++ [p.2]

/-- Run detection: the loop followed by the trailing flush. -/
def findRuns (minH : Nat) (ordered : List (Int × Nat)) : List (List (Int × Nat)) :=
  finishRuns (runsLoop minH ordered [] [])

/-- Source: `good_runs = [r for r in runs if len(r) >= cfg["REQUIRED_CONSECUTIVE_DAYS"]]`. -/
def goodRuns (req : Nat) (runs : List (List (Int × Nat))) : List (List (Int × Nat)) :=
  runs.filter (fun r => req ≤ r.length)

/-- Equality of analyzer results is decidable, so concrete analyses can be
checked by evaluation. -/
instance {ε α : Type} [DecidableEq ε] [DecidableEq α] : DecidableEq (Except ε α) :=
  fun a b =>
    match a, b with
    | .error e, .error f =>
      if h : e = f then isTrue (by rw [h]) else isFalse (fun hh => h (Except.error.inj hh))
    | .ok x, .ok y =>
      if h : x = y then isTrue (by rw [h]) else isFalse (fun hh => h (Except.ok.inj hh))
    | .error _, .ok _ => isFalse (fun hh => Except.noConfusion hh)
    | .ok _, .error _ => isFalse (fun hh => Except.noConfusion hh)

/-- Source function `analyze_forecast(data, cfg)`.  The Python
`dt.date.today()` is the extra parameter `today`; the `ValueError` raised on
empty input arrays is the `.error` case. -/
def analyze_forecast (data : ForecastData) (cfg : Config) (today : Int) :
    Except String (List (Int × Nat) × List (List (Int × Nat)) × List (List (Int × Nat))) :=
  let times := data.time
  let speeds := data.windspeed_10m
  if times.isEmpty || speeds.isEmpty then
    .error "No hourly wind data available"
  else
    let day_hours := dayHours (times.zip speeds) cfg
    let ordered := buildOrdered day_hours today cfg.forecastDays
    let runs := findRuns cfg.minHoursPerDay ordered
    let good_runs := goodRuns cfg.requiredConsecutiveDays runs
    .ok (ordered, runs, good_runs)

/-- Formalisation of the specification sentence for run detection: the runs
are the maximal contiguous subsequences of the ordered day sequence in which
every day's qualifying-hour count reaches `min_hours_per_day`.  Splitting the
sequence at every non-qualifying day (`List.splitOnP`) yields exactly the
maximal qualifying segments interleaved with empty pieces; the empty pieces
are discarded, matching "non-qualifying days are dropped, not retained as
empty runs". -/
def runsSpec (minH : Nat) (ordered : List (Int × Nat)) : List (List (Int × Nat)) :=
  (ordered.splitOnP (fun dh => !decide (minH ≤ dh.2))).filter (fun r => !r.isEmpty)

/-- Python truthiness of an optional environment string: `not s` is true both
for an unset variable (`None`) and for the empty string. -/
def blank : Option String → Bool
  | none => true
  | some s => s.isEmpty

/-- Observable actions of the SMTP session in `send_email`, in order. -/
inductive NetEvent
  | connect (host : String) (port : Nat)
  | ehlo
  | starttls
  | login
  | sendMessage
deriving DecidableEq, Repr

/-- Source function `send_email(subject, body, cfg)`, abstracted over the
server: `advertises` tells whether the server advertises the STARTTLS
extension.  The result is the ordered list of network actions performed
together with `some msg` when the function raises the configuration
`ValueError`.  The validation `if not host or not cfg["EMAIL_FROM"] or not
cfg["EMAIL_TO"]: raise ValueError(...)` sits, as in the source, before the
`smtplib.SMTP(...)` connection, so the error case performs no network
action.  SMTP-level failures after the connect abort the trace but are not
modelled further, since the caller only distinguishes success from any
exception. -/
def send_email (cfg : Config) (advertises : Bool) : List NetEvent × Option String :=
  let host := cfg.smtpHost
  let port := match cfg.smtpPort with
    | none => 587
    | some p => if p = 0 then 587 else p
  let user := cfg.smtpUser
  let pwd := cfg.smtpPassword
  if blank host || blank cfg.emailFrom || blank cfg.emailTo then
    ([], some "SMTP_HOST, EMAIL_FROM and EMAIL_TO must be set in environment")
  else
    ([NetEvent.connect (host.getD "") port, NetEvent.ehlo]
      ++ (if advertises then [NetEvent.starttls, NetEvent.ehlo] else [])
      ++ (if !blank user && !blank pwd then [NetEvent.login] else [])
      ++ [NetEvent.sendMessage], none)

/-- Observable actions of `main` on its standard output and towards the
Notifier.  `attemptSend` marks the (single) call of `send_email`. -/
inductive Event
  | printFetchFail
  | printSummary
  | printReport
  | attemptSend
  | printSent
  | printSendFail
deriving DecidableEq, Repr

/-- How the process terminates.  `uncaughtException` is a Python exception
that no handler in `main` catches: the interpreter prints a traceback and
exits with status 1. -/
inductive ExitOutcome
  | success
  | fetchFailure
  | sendFailure
  | uncaughtException
deriving DecidableEq, Repr

/-- The numeric process exit status of each outcome. -/
def exitCode : ExitOutcome → Nat
  | .success => 0
  | .fetchFailure => 2
  | .sendFailure => 3
  | .uncaughtException => 1

/-- Result of one invocation: the ordered observable events and the exit
outcome. -/
structure MainResult where
  events : List Event
  outcome : ExitOutcome
deriving DecidableEq, Repr

/-- Source function main, renamed since Lean reserves that identifier, as a pure function of its environment:
`fetchResult` is the outcome of `fetch_open_meteo` (exception or payload),
`dryRun` the `--dry-run` flag, and `sendOk` tells whether the `send_email`
call would return normally.  Faithful to the source, only the fetch call is
inside the first `try` block; `analyze_forecast` is called after it, outside
any handler, so its `ValueError` on empty data arrays propagates uncaught. -/
def mainFn (fetchResult : Except String ForecastData) (cfg : Config) (today : Int)
    (dryRun : Bool) (sendOk : Bool) : MainResult :=
  match fetchResult with
  | .error _ => ⟨[Event.printFetchFail], ExitOutcome.fetchFailure⟩
  | .ok data =>
    match analyze_forecast data cfg today with
    | .error _ => ⟨[], ExitOutcome.uncaughtException⟩
    | .ok (_ordered, _runs, good_runs) =>
      if good_runs.isEmpty then ⟨[Event.printSummary], ExitOutcome.success⟩
      else if dryRun then ⟨[Event.printReport], ExitOutcome.success⟩
      else if sendOk then ⟨[Event.attemptSend, Event.printSent], ExitOutcome.success⟩
      else ⟨[Event.attemptSend, Event.printSendFail], ExitOutcome.sendFailure⟩

/-- A single reading of 0 m/s at day 0: non-empty input whose qualifying-hour
counts are all zero under the default thresholds. -/
def oneCalmReading : ForecastData :=
  ⟨[⟨0⟩], [0]⟩

/-- A payload whose hourly arrays are both empty. -/
def emptyData : ForecastData :=
  ⟨[], []⟩

/-- A payload with a timestamp but no speed entry. -/
def timesOnly : ForecastData :=
  ⟨[⟨3⟩], []⟩

/-- A payload with a speed but no timestamp entry. -/
def speedsOnly : ForecastData :=
  ⟨[], [10]⟩

/-- Two days with six readings of 10 m/s (≈19.44 kn) each: one good run of
two days under the default configuration. -/
def goodTwoDays : ForecastData :=
  ⟨[⟨0⟩, ⟨0⟩, ⟨0⟩, ⟨0⟩, ⟨0⟩, ⟨0⟩, ⟨1⟩, ⟨1⟩, ⟨1⟩, ⟨1⟩, ⟨1⟩, ⟨1⟩],
   [10, 10, 10, 10, 10, 10, 10, 10, 10, 10, 10, 10]⟩

/-- The spec's run-detection example: counts [7, 8, 0, 9, 10, 0, 0] on days
0 through 6. -/
def exampleDays : List (Int × Nat) :=
  [(0, 7), (1, 8), (2, 0), (3, 9), (4, 10), (5, 0), (6, 0)]

/-- A degenerate configuration with a zero per-day hour threshold. -/
def cfgZero : Config :=
  { defaultConfig with minHoursPerDay := 0, requiredConsecutiveDays := 1, forecastDays := 1 }

/-- An SMTP configuration lacking only the to-address. -/
def cfgNoTo : Config :=
  { defaultConfig with
      smtpHost := some "smtp.example.org"
      smtpPort := some 587
      emailFrom := some "alert@example.org"
      emailTo := none }

/-- Every element of every piece produced by `List.splitOnP` falsifies the
splitting predicate: the delimiters themselves are dropped. -/
theorem splitOnP_pieces_not {α : Type} (p : α → Bool) :
    ∀ (l : List α), ∀ r ∈ l.splitOnP p, ∀ x ∈ r, p x = false := by
  intro l
  induction l with
  | nil =>
    intro r hr x hx
    rw [List.splitOnP_nil, List.mem_singleton] at hr
    subst hr
    simp at hx
  | cons a as ih =>
    intro r hr x hx
    rw [List.splitOnP_cons] at hr
    by_cases hp : p a
    · rw [if_pos hp] at hr
      rcases List.mem_cons.mp hr with h | h
      · subst h; simp at hx
      · exact ih r h x hx
    · rw [if_neg hp] at hr
      obtain ⟨s, ss, hss⟩ := List.exists_cons_of_ne_nil (List.splitOnP_ne_nil p as)
      rw [hss, List.modifyHead_cons] at hr
      rcases List.mem_cons.mp hr with h | h
      · subst h
        rcases List.mem_cons.mp hx with hx | hx
        · subst hx; exact Bool.eq_false_iff.mpr hp
        · exact ih s (hss ▸ List.mem_cons_self s ss) x hx
      · exact ih r (hss ▸ List.mem_cons_of_mem s h) x hx

/-- Prepending the empty list to the head is the identity. -/
theorem modifyHead_nil_append {α : Type} (l : List (List α)) :
    l.modifyHead (fun s => [] ++ s) = l := by
  cases l <;> rfl

/-- Modifying the head with the identity function changes nothing. -/
theorem modifyHead_self {α : Type} (l : List α) :
    l.modifyHead (fun s => s) = l := by
  cases l <;> rfl

/-- The run-detection loop, continued by the trailing flush, appends to the
already collected `runs` exactly the nonempty pieces of the split of the
remaining input, the first piece being extended by the open `current` run. -/
theorem finishRuns_runsLoop (minH : Nat) :
    ∀ (l : List (Int × Nat)) (runs : List (List (Int × Nat))) (current : List (Int × Nat)),
    finishRuns (runsLoop minH l runs current)
      = runs ++ ((l.splitOnP (fun dh => !decide (minH ≤ dh.2))).modifyHead
          (fun s => current ++ s)).filter (fun r => !r.isEmpty) := by
  intro l
  induction l with
  | nil =>
    intro runs current
    rw [List.splitOnP_nil]
    simp only [runsLoop, finishRuns, List.modifyHead_cons, List.filter]
    by_cases h : current.isEmpty
    · simp [h, List.isEmpty_iff.mp h]
    · simp [h]
  | cons dh rest ih =>
    intro runs current
    rw [List.splitOnP_cons]
    by_cases hq : minH ≤ dh.2
    · have hp : (!decide (minH ≤ dh.2)) = false := by simp [hq]
      have hstep : runsLoop minH (dh :: rest) runs current
          = runsLoop minH rest runs (current ++ [dh]) := by
        rw [runsLoop, if_pos hq]
      rw [hp, hstep, ih]
      simp only [Bool.false_eq_true, if_false, List.modifyHead_modifyHead]
      have hcomp : ((fun s => current ++ s) ∘ List.cons dh)
          = fun s => (current ++ [dh]) ++ s := by
        funext s
        simp
      rw [hcomp]
    · have hp : (!decide (minH ≤ dh.2)) = true := by simp [hq]
      rw [hp]
      simp only [if_true, List.modifyHead_cons]
      by_cases hc : current.isEmpty
      · have hcur : current = [] := List.isEmpty_iff.mp hc
        subst hcur
        have hstep : runsLoop minH (dh :: rest) runs []
            = runsLoop minH rest runs [] := by
          rw [runsLoop, if_neg hq]
          simp
        rw [hstep, ih]
        simp [modifyHead_nil_append, modifyHead_self, List.filter]
      · have hcne : (!current.isEmpty) = true := by simp [hc]
        have hstep : runsLoop minH (dh :: rest) runs current
            = runsLoop minH rest (runs ++ [current]) [] := by
          rw [runsLoop, if_neg hq, if_neg hc]
        rw [hstep, ih, modifyHead_nil_append]
        rw [List.filter_cons, List.append_nil]
        simp [hcne]

/-- The imperative run detection coincides with the declarative
"maximal qualifying segments" description. -/
theorem findRuns_eq_runsSpec (minH : Nat) (l : List (Int × Nat)) :
    findRuns minH l = runsSpec minH l := by
  rw [findRuns, finishRuns_runsLoop, runsSpec]
  obtain ⟨s, ss, hss⟩ := List.exists_cons_of_ne_nil
    (List.splitOnP_ne_nil (fun dh => !decide (minH ≤ dh.2)) l)
  rw [hss]
  simp

/-- C1: on every ordered day sequence and configuration, the detected runs
are exactly the maximal contiguous all-qualifying segments (`runsSpec`), each
run is nonempty and contains only days meeting the hour threshold (so a
below-threshold day appears in no run), the good runs are exactly the runs of
length at least `required_consecutive_days`, and on the spec's example
[7, 8, 0, 9, 10, 0, 0] with threshold 6 the runs are days 0-1 and days 3-4,
both good for a required length of 2. -/
theorem claim_C1 (minH req : Nat) (l : List (Int × Nat)) :
    findRuns minH l = runsSpec minH l
    ∧ (∀ r ∈ findRuns minH l, r ≠ [] ∧ ∀ dh ∈ r, minH ≤ dh.2)
    ∧ goodRuns req (findRuns minH l) = (findRuns minH l).filter (fun r => req ≤ r.length)
    ∧ findRuns 6 exampleDays = [[(0, 7), (1, 8)], [(3, 9), (4, 10)]]
    ∧ goodRuns 2 (findRuns 6 exampleDays) = [[(0, 7), (1, 8)], [(3, 9), (4, 10)]] := by
  refine ⟨findRuns_eq_runsSpec minH l, ?_, rfl, by decide, by decide⟩
  intro r hr
  rw [findRuns_eq_runsSpec, runsSpec] at hr
  have h1 := List.mem_filter.mp hr
  constructor
  · intro hnil
    subst hnil
    simp at h1
  · intro dh hdh
    have h2 := splitOnP_pieces_not (fun dh => !decide (minH ≤ dh.2)) l r h1.1 dh hdh
    simpa using h2

/-- Witness for C1 at a concrete run of the spec example. -/
theorem claim_C1_witness :
    ([((0 : Int), (7 : Nat)), (1, 8)] : List (Int × Nat)) ≠ []
    ∧ ∀ dh ∈ ([((0 : Int), (7 : Nat)), (1, 8)] : List (Int × Nat)), 6 ≤ dh.2 :=
  (claim_C1 6 2 exampleDays).2.1 [((0 : Int), (7 : Nat)), (1, 8)] (by decide)

/-- The analyzer reports its no-data error precisely when one of the two
hourly arrays is empty. -/
theorem analyze_forecast_error_iff (data : ForecastData) (cfg : Config) (today : Int) :
    analyze_forecast data cfg today = .error "No hourly wind data available"
      ↔ (data.time = [] ∨ data.windspeed_10m = []) := by
  unfold analyze_forecast
  by_cases h : data.time.isEmpty || data.windspeed_10m.isEmpty
  · rw [if_pos h]
    simp only [true_iff]
    rcases Bool.or_eq_true_iff.mp h with h' | h'
    · exact Or.inl (List.isEmpty_iff.mp h')
    · exact Or.inr (List.isEmpty_iff.mp h')
  · rw [if_neg h]
    simp only [reduceCtorEq, false_iff]
    intro hcon
    apply h
    rcases hcon with h' | h'
    · exact Bool.or_eq_true_iff.mpr (Or.inl (List.isEmpty_iff.mpr h'))
    · exact Bool.or_eq_true_iff.mpr (Or.inr (List.isEmpty_iff.mpr h'))

/-- On non-empty input arrays the analyzer succeeds and returns the ordered
window, its runs, and the good runs. -/
theorem analyze_forecast_ok (data : ForecastData) (cfg : Config) (today : Int)
    (h1 : data.time ≠ []) (h2 : data.windspeed_10m ≠ []) :
    analyze_forecast data cfg today =
      .ok (buildOrdered (dayHours (data.time.zip data.windspeed_10m) cfg) today cfg.forecastDays,
        findRuns cfg.minHoursPerDay
          (buildOrdered (dayHours (data.time.zip data.windspeed_10m) cfg) today cfg.forecastDays),
        goodRuns cfg.requiredConsecutiveDays
          (findRuns cfg.minHoursPerDay
            (buildOrdered (dayHours (data.time.zip data.windspeed_10m) cfg) today
              cfg.forecastDays))) := by
  unfold analyze_forecast
  rw [if_neg]
  intro h
  rcases Bool.or_eq_true_iff.mp h with h' | h'
  · exact h1 (List.isEmpty_iff.mp h')
  · exact h2 (List.isEmpty_iff.mp h')

/-- The ordered window always has exactly `n` entries. -/
theorem buildOrdered_length (dh : Int → Option Nat) (t : Int) (n : Nat) :
    (buildOrdered dh t n).length = n := by
  rw [buildOrdered, List.length_map, List.length_range]

/-- The dates of the ordered window are `t, t+1, ..., t+n-1` in order. -/
theorem buildOrdered_dates (dh : Int → Option Nat) (t : Int) (n : Nat) :
    (buildOrdered dh t n).map Prod.fst = (List.range n).map (fun (i : Nat) => t + (i : Int)) := by
  simp [buildOrdered, List.map_map]

/-- A date of the window that the aggregated data never mentions carries a
zero count. -/
theorem buildOrdered_absent_zero (dh : Int → Option Nat) (t : Int) (n : Nat)
    (d : Int) (cnt : Nat) (hmem : (d, cnt) ∈ buildOrdered dh t n)
    (habs : dh d = none) : cnt = 0 := by
  rw [buildOrdered] at hmem
  obtain ⟨i, hi, heq⟩ := List.mem_map.mp hmem
  have hd : t + (i : Int) = d := congrArg Prod.fst heq
  have hcnt : (dh (t + (i : Int))).getD 0 = cnt := congrArg Prod.snd heq
  rw [hd, habs] at hcnt
  exact hcnt.symm

/-- C2: for every horizon and non-empty raw input, the analyzer returns an
ordered day list of exactly `forecast_days` entries whose dates are the
consecutive calendar dates starting at the current date (hence no duplicates
and no gaps), and a window date absent from the aggregated data carries
qualifying-hour count 0 rather than causing an error. -/
theorem claim_C2 (data : ForecastData) (cfg : Config) (today : Int)
    (h1 : data.time ≠ []) (h2 : data.windspeed_10m ≠ []) :
    ∃ ordered runs good,
      analyze_forecast data cfg today = .ok (ordered, runs, good)
      ∧ ordered.length = cfg.forecastDays
      ∧ ordered.map Prod.fst
          = (List.range cfg.forecastDays).map (fun (i : Nat) => today + (i : Int))
      ∧ ∀ d cnt, (d, cnt) ∈ ordered →
          dayHours (data.time.zip data.windspeed_10m) cfg d = none → cnt = 0 := by
  refine ⟨_, _, _, analyze_forecast_ok data cfg today h1 h2,
    buildOrdered_length _ _ _, buildOrdered_dates _ _ _, ?_⟩
  intro d cnt hmem habs
  exact buildOrdered_absent_zero _ _ _ d cnt hmem habs

/-- Witness for C2 on a one-reading payload under the default configuration. -/
theorem claim_C2_witness :
    ∃ ordered runs good,
      analyze_forecast oneCalmReading defaultConfig 0 = .ok (ordered, runs, good)
      ∧ ordered.length = defaultConfig.forecastDays
      ∧ ordered.map Prod.fst
          = (List.range defaultConfig.forecastDays).map (fun (i : Nat) => (0 : Int) + (i : Int))
      ∧ ∀ d cnt, (d, cnt) ∈ ordered →
          dayHours (oneCalmReading.time.zip oneCalmReading.windspeed_10m) defaultConfig d = none →
          cnt = 0 :=
  claim_C2 oneCalmReading defaultConfig 0 (by decide) (by decide)

/-- Zipping ignores the unmatched tail of the longer list: both lists may be
truncated to the shorter length without changing the result. -/
theorem zip_take_min {α β : Type} :
    ∀ (l1 : List α) (l2 : List β),
      (l1.take (min l1.length l2.length)).zip (l2.take (min l1.length l2.length))
        = l1.zip l2 := by
  intro l1
  induction l1 with
  | nil => intro l2; simp
  | cons a as ih =>
    intro l2
    cases l2 with
    | nil => simp
    | cons b bs =>
      simp only [List.length_cons, Nat.succ_min_succ, List.take_succ_cons,
        List.zip_cons_cons]
      rw [ih bs]

/-- A truncation to a positive length of a non-empty list is non-empty. -/
theorem take_pos_ne_nil {α : Type} (l : List α) (n : Nat)
    (hn : 0 < n) (hl : l ≠ []) : l.take n ≠ [] := by
  intro h
  rcases List.take_eq_nil_iff.mp h with h' | h'
  · exact Nat.lt_irrefl 0 (h' ▸ hn)
  · exact hl h'

/-- C10: when both hourly arrays are non-empty but of different lengths the
analyzer does not fail; it aggregates exactly the first
min(len(times), len(speeds)) pairs — replacing the input by its truncation to
that length changes nothing — and still returns a full ordered day list. -/
theorem claim_C10 (data : ForecastData) (cfg : Config) (today : Int)
    (h1 : data.time ≠ []) (h2 : data.windspeed_10m ≠ []) :
    analyze_forecast data cfg today
      = analyze_forecast
          ⟨data.time.take (min data.time.length data.windspeed_10m.length),
           data.windspeed_10m.take (min data.time.length data.windspeed_10m.length)⟩
          cfg today
    ∧ ∃ ordered runs good,
        analyze_forecast data cfg today = .ok (ordered, runs, good)
        ∧ ordered.length = cfg.forecastDays := by
  have hmin : 0 < min data.time.length data.windspeed_10m.length := by
    apply lt_min
    · exact List.length_pos.mpr h1
    · exact List.length_pos.mpr h2
  have h1' : data.time.take (min data.time.length data.windspeed_10m.length) ≠ [] :=
    take_pos_ne_nil _ _ hmin h1
  have h2' : data.windspeed_10m.take (min data.time.length data.windspeed_10m.length) ≠ [] :=
    take_pos_ne_nil _ _ hmin h2
  constructor
  · rw [analyze_forecast_ok data cfg today h1 h2,
      analyze_forecast_ok _ cfg today h1' h2']
    rw [show (⟨data.time.take (min data.time.length data.windspeed_10m.length),
        data.windspeed_10m.take (min data.time.length data.windspeed_10m.length)⟩ :
          ForecastData).time
      = data.time.take (min data.time.length data.windspeed_10m.length) from rfl]
    rw [show (⟨data.time.take (min data.time.length data.windspeed_10m.length),
        data.windspeed_10m.take (min data.time.length data.windspeed_10m.length)⟩ :
          ForecastData).windspeed_10m
      = data.windspeed_10m.take (min data.time.length data.windspeed_10m.length) from rfl]
    rw [zip_take_min]
  · exact ⟨_, _, _, analyze_forecast_ok data cfg today h1 h2,
      buildOrdered_length _ _ _⟩

/-- Witness for C10 on a payload with two timestamps but one speed. -/
theorem claim_C10_witness :
    analyze_forecast ⟨[⟨0⟩, ⟨1⟩], [10]⟩ defaultConfig 0
      = analyze_forecast
          ⟨([⟨0⟩, ⟨1⟩] : List HourlyTime).take
              (min ([⟨0⟩, ⟨1⟩] : List HourlyTime).length ([10] : List ℚ).length),
           ([10] : List ℚ).take
              (min ([⟨0⟩, ⟨1⟩] : List HourlyTime).length ([10] : List ℚ).length)⟩
          defaultConfig 0
    ∧ ∃ ordered runs good,
        analyze_forecast ⟨[⟨0⟩, ⟨1⟩], [10]⟩ defaultConfig 0 = .ok (ordered, runs, good)
        ∧ ordered.length = defaultConfig.forecastDays :=
  claim_C10 ⟨[⟨0⟩, ⟨1⟩], [10]⟩ defaultConfig 0 (by decide) (by decide)

/-- With an empty `current` accumulator, a stretch of days that all miss the
threshold leaves the loop state untouched. -/
theorem runsLoop_all_below (minH : Nat) :
    ∀ (l : List (Int × Nat)), (∀ dh ∈ l, ¬ minH ≤ dh.2) →
    ∀ (runs : List (List (Int × Nat))), runsLoop minH l runs [] = (runs, []) := by
  intro l
  induction l with
  | nil => intro _ runs; rfl
  | cons dh rest ih =>
    intro hall runs
    rw [runsLoop, if_neg (hall dh (List.mem_cons_self dh rest))]
    simp only [List.isEmpty_nil, if_true]
    exact ih (fun x hx => hall x (List.mem_cons_of_mem dh hx)) runs

/-- If no day meets the threshold, run detection produces no run at all. -/
theorem findRuns_eq_nil (minH : Nat) (l : List (Int × Nat))
    (hall : ∀ dh ∈ l, ¬ minH ≤ dh.2) : findRuns minH l = [] := by
  rw [findRuns, runsLoop_all_below minH l hall []]
  rfl

/-- A calm reading (0 m/s = 0 kn) misses the default 12-knot lower bound. -/
theorem readingQualifies_calm : readingQualifies defaultConfig 0 = false := by
  rw [readingQualifies]
  have h : ¬ defaultConfig.minWindKnots ≤ mps_to_knots 0 := by
    rw [mps_to_knots]
    norm_num [defaultConfig]
  simp [h]

/-- A calm reading also misses the 12-knot bound of the degenerate
configuration, whose wind window is the default one. -/
theorem readingQualifies_calm_cfgZero : readingQualifies cfgZero 0 = false := by
  rw [readingQualifies]
  have h : ¬ cfgZero.minWindKnots ≤ mps_to_knots 0 := by
    rw [mps_to_knots]
    norm_num [cfgZero, defaultConfig]
  simp [h]

/-- A 10 m/s reading (≈19.44 kn) sits inside the default 12-30 knot
window. -/
theorem readingQualifies_ten : readingQualifies defaultConfig 10 = true := by
  rw [readingQualifies]
  have h1 : defaultConfig.minWindKnots ≤ mps_to_knots 10 := by
    rw [mps_to_knots]
    norm_num [defaultConfig]
  have h2 : mps_to_knots 10 ≤ defaultConfig.maxWindKnots := by
    rw [mps_to_knots]
    norm_num [defaultConfig]
  simp [h1, h2]

/-- Concrete analysis: a single calm reading under the default configuration
gives an all-zero week, no runs, no good runs. -/
theorem analyze_oneCalm_default :
    analyze_forecast oneCalmReading defaultConfig 0
      = .ok ([(0, 0), (1, 0), (2, 0), (3, 0), (4, 0), (5, 0), (6, 0)], [], []) := by
  rw [analyze_forecast_ok oneCalmReading defaultConfig 0 (by decide) (by decide)]
  have hdh : ∀ d : Int,
      dayHours (oneCalmReading.time.zip oneCalmReading.windspeed_10m) defaultConfig d
        = if d = 0 then some 0 else none := by
    intro d
    simp [oneCalmReading, dayHours, readingQualifies_calm]
  have hord : buildOrdered
      (dayHours (oneCalmReading.time.zip oneCalmReading.windspeed_10m) defaultConfig) 0
      defaultConfig.forecastDays
      = [(0, 0), (1, 0), (2, 0), (3, 0), (4, 0), (5, 0), (6, 0)] := by
    simp only [buildOrdered, hdh]
    decide
  rw [hord]
  decide

/-- Concrete analysis: the same calm reading under the degenerate zero-hour
threshold yields one run and one good run despite the all-zero counts. -/
theorem analyze_oneCalm_cfgZero :
    analyze_forecast oneCalmReading cfgZero 0
      = .ok ([(0, 0)], [[(0, 0)]], [[(0, 0)]]) := by
  rw [analyze_forecast_ok oneCalmReading cfgZero 0 (by decide) (by decide)]
  have hdh : ∀ d : Int,
      dayHours (oneCalmReading.time.zip oneCalmReading.windspeed_10m) cfgZero d
        = if d = 0 then some 0 else none := by
    intro d
    simp [oneCalmReading, dayHours, readingQualifies_calm_cfgZero]
  have hord : buildOrdered
      (dayHours (oneCalmReading.time.zip oneCalmReading.windspeed_10m) cfgZero) 0
      cfgZero.forecastDays
      = [(0, 0)] := by
    simp only [buildOrdered, hdh]
    decide
  rw [hord]
  decide

/-- Concrete analysis: six 10 m/s readings on each of two days under the
default configuration give counts 6 and 6, one run of two days, and one good
run. -/
theorem analyze_goodTwoDays :
    analyze_forecast goodTwoDays defaultConfig 0
      = .ok ([(0, 6), (1, 6), (2, 0), (3, 0), (4, 0), (5, 0), (6, 0)],
          [[(0, 6), (1, 6)]], [[(0, 6), (1, 6)]]) := by
  rw [analyze_forecast_ok goodTwoDays defaultConfig 0 (by decide) (by decide)]
  have hdh : ∀ d : Int,
      dayHours (goodTwoDays.time.zip goodTwoDays.windspeed_10m) defaultConfig d
        = if d = 1 then some 6 else if d = 0 then some 6 else none := by
    intro d
    simp only [goodTwoDays, dayHours, readingQualifies_ten, List.zip, List.zipWith,
      List.foldl, if_true]
    by_cases h1 : d = 1
    · simp [h1]
    · by_cases h0 : d = 0 <;> simp [h1, h0]
  have hord : buildOrdered
      (dayHours (goodTwoDays.time.zip goodTwoDays.windspeed_10m) defaultConfig) 0
      defaultConfig.forecastDays
      = [(0, 6), (1, 6), (2, 0), (3, 0), (4, 0), (5, 0), (6, 0)] := by
    simp only [buildOrdered, hdh]
    decide
  rw [hord]
  decide

/-- C5 as amended: the analyzer raises its no-data error exactly when the
raw input lacks timestamp entries or lacks speed entries; and for every
configuration demanding at least one qualifying hour per day, a successful
analysis whose ordered window shows all-zero qualifying-hour counts yields an
empty run list and an empty good-run list — a valid result, not an error.
(The original claim, with no restriction on `min_hours_per_day`, fails: see
the counterexample with a zero threshold.) -/
theorem claim_C5_amended (data : ForecastData) (cfg : Config) (today : Int) :
    (analyze_forecast data cfg today = .error "No hourly wind data available"
      ↔ (data.time = [] ∨ data.windspeed_10m = []))
    ∧ (∀ ordered runs good, 1 ≤ cfg.minHoursPerDay →
        analyze_forecast data cfg today = .ok (ordered, runs, good) →
        (∀ dh ∈ ordered, dh.2 = 0) → runs = [] ∧ good = []) := by
  refine ⟨analyze_forecast_error_iff data cfg today, ?_⟩
  intro ordered runs good hmin hok hzero
  have h1 : data.time ≠ [] := by
    intro h
    rw [(analyze_forecast_error_iff data cfg today).mpr (Or.inl h)] at hok
    exact Except.noConfusion hok
  have h2 : data.windspeed_10m ≠ [] := by
    intro h
    rw [(analyze_forecast_error_iff data cfg today).mpr (Or.inr h)] at hok
    exact Except.noConfusion hok
  rw [analyze_forecast_ok data cfg today h1 h2] at hok
  have hok' := Except.ok.inj hok
  have ho : ordered
      = buildOrdered (dayHours (data.time.zip data.windspeed_10m) cfg) today
          cfg.forecastDays := (congrArg Prod.fst hok').symm
  have hr : runs = findRuns cfg.minHoursPerDay
      (buildOrdered (dayHours (data.time.zip data.windspeed_10m) cfg) today
        cfg.forecastDays) := (congrArg (fun p => p.2.1) hok').symm
  have hg : good = goodRuns cfg.requiredConsecutiveDays
      (findRuns cfg.minHoursPerDay
        (buildOrdered (dayHours (data.time.zip data.windspeed_10m) cfg) today
          cfg.forecastDays)) := (congrArg (fun p => p.2.2) hok').symm
  have hruns : runs = [] := by
    rw [hr]
    apply findRuns_eq_nil
    intro dh hdh hle
    have hz : dh.2 = 0 := hzero dh (ho ▸ hdh)
    rw [hz] at hle
    exact Nat.not_succ_le_zero 0 (Nat.le_trans hmin hle)
  refine ⟨hruns, ?_⟩
  rw [hg, ← hr, hruns]
  rfl

/-- Counterexample to C5 as stated: with `min_hours_per_day` = 0,
`required_consecutive_days` = 1 and a one-day horizon, a non-empty input
whose only reading is calm produces the all-zero ordered window [(0, 0)],
yet one run and one good run, because a zero count meets a zero threshold. -/
theorem claim_C5_counterexample :
    analyze_forecast oneCalmReading cfgZero 0
      = .ok ([(0, 0)], [[(0, 0)]], [[(0, 0)]])
    ∧ (∀ dh ∈ ([((0 : Int), (0 : Nat))] : List (Int × Nat)), dh.2 = 0)
    ∧ ([[((0 : Int), (0 : Nat))]] : List (List (Int × Nat))) ≠ [] := by
  refine ⟨analyze_oneCalm_cfgZero, by decide, by decide⟩

/-- Witness for the amended C5: a calm reading under the default
configuration is not an error and yields no runs and no good runs. -/
theorem claim_C5_witness :
    analyze_forecast oneCalmReading defaultConfig 0
      = .ok ([(0, 0), (1, 0), (2, 0), (3, 0), (4, 0), (5, 0), (6, 0)], [], [])
    ∧ (([] : List (List (Int × Nat))) = [] ∧ ([] : List (List (Int × Nat))) = []) :=
  ⟨analyze_oneCalm_default,
    (claim_C5_amended oneCalmReading defaultConfig 0).2
      [(0, 0), (1, 0), (2, 0), (3, 0), (4, 0), (5, 0), (6, 0)] [] []
      (by decide) analyze_oneCalm_default (by decide)⟩

/-- C3: an hourly reading qualifies exactly when its speed converted to
knots lies between `min_knots` and `max_knots`, both endpoints included: a
reading whose conversion hits either endpoint exactly counts as qualifying
(provided the window is non-degenerate, i.e. min ≤ max). -/
theorem claim_C3 (cfg : Config) (sp : ℚ) :
    (readingQualifies cfg sp = true
      ↔ cfg.minWindKnots ≤ mps_to_knots sp ∧ mps_to_knots sp ≤ cfg.maxWindKnots)
    ∧ (cfg.minWindKnots ≤ cfg.maxWindKnots → mps_to_knots sp = cfg.minWindKnots →
        readingQualifies cfg sp = true)
    ∧ (cfg.minWindKnots ≤ cfg.maxWindKnots → mps_to_knots sp = cfg.maxWindKnots →
        readingQualifies cfg sp = true) := by
  refine ⟨?_, ?_, ?_⟩
  · simp [readingQualifies]
  · intro hlim heq
    rw [readingQualifies, heq]
    simp [hlim]
  · intro hlim heq
    rw [readingQualifies, heq]
    simp [hlim]

/-- Witness for C3: the speed whose conversion is exactly 12 kn (the default
lower bound) qualifies. -/
theorem claim_C3_witness :
    readingQualifies defaultConfig (1200000000 / 194384449) = true :=
  (claim_C3 defaultConfig (1200000000 / 194384449)).2.1
    (by norm_num [defaultConfig])
    (by rw [mps_to_knots]; norm_num [defaultConfig])

/-- C9: the unit converter is the pure total function multiplying by the
fixed factor 1.94384449; it maps 0 m/s to exactly 0 kn and 10 m/s to
19.4384449 kn, within 1/1000 of the 19.4384 value quoted by the spec. -/
theorem claim_C9 :
    (∀ q : ℚ, mps_to_knots q = q * 1.94384449)
    ∧ mps_to_knots 0 = 0
    ∧ mps_to_knots 10 = 19.4384449
    ∧ |mps_to_knots 10 - 19.4384| < 1 / 1000 := by
  refine ⟨fun q => rfl, ?_, ?_, ?_⟩
  · rw [mps_to_knots]; norm_num
  · rw [mps_to_knots]; norm_num
  · rw [mps_to_knots]
    rw [show |(10 : ℚ) * 1.94384449 - 19.4384| = 19.4384449 - 19.4384 from by norm_num]
    norm_num

/-- C7: whenever the SMTP host, the from-address or the to-address is unset
(or empty, which Python truthiness also treats as absent), `send_email`
raises its configuration error having performed no network action at all:
the validation precedes the SMTP connection on every execution path. -/
theorem claim_C7 (cfg : Config) (advertises : Bool)
    (h : blank cfg.smtpHost = true ∨ blank cfg.emailFrom = true ∨ blank cfg.emailTo = true) :
    (send_email cfg advertises).1 = []
    ∧ (send_email cfg advertises).2
        = some "SMTP_HOST, EMAIL_FROM and EMAIL_TO must be set in environment" := by
  have hcond : (blank cfg.smtpHost || blank cfg.emailFrom || blank cfg.emailTo) = true := by
    rcases h with h | h | h <;> simp [h]
  rw [send_email]
  simp [hcond]

/-- Witness for C7: a configuration with host and from-address set but no
to-address produces the configuration error and an empty network trace. -/
theorem claim_C7_witness :
    (send_email cfgNoTo true).1 = []
    ∧ (send_email cfgNoTo true).2
        = some "SMTP_HOST, EMAIL_FROM and EMAIL_TO must be set in environment" :=
  claim_C7 cfgNoTo true (Or.inr (Or.inr (by decide)))

/-- C8: with the dry-run flag set, the Notifier is never invoked — no
`attemptSend` action occurs — for every fetch outcome, configuration and
current date; moreover whenever the analysis succeeds the dry-run path still
prints something (the summary or the report). -/
theorem claim_C8 (fetchRes : Except String ForecastData) (cfg : Config) (today : Int)
    (sendOk : Bool) :
    Event.attemptSend ∉ (mainFn fetchRes cfg today true sendOk).events
    ∧ (∀ data ordered runs good, fetchRes = .ok data →
        analyze_forecast data cfg today = .ok (ordered, runs, good) →
        (mainFn fetchRes cfg today true sendOk).events ≠ []) := by
  cases fetchRes with
  | error e =>
    constructor
    · rw [mainFn]
      decide
    · intro data ordered runs good hfetch
      exact absurd hfetch (by simp)
  | ok data =>
    cases hana : analyze_forecast data cfg today with
    | error msg =>
      constructor
      · rw [mainFn]
        simp only [hana]
        decide
      · intro data' ordered runs good hfetch hok
        rw [← Except.ok.inj hfetch] at hok
        rw [hana] at hok
        exact Except.noConfusion hok
    | ok triple =>
      obtain ⟨ordered, runs, good⟩ := triple
      by_cases hg : good.isEmpty
      · constructor
        · rw [mainFn]
          simp only [hana, hg, if_true]
          decide
        · intro data' o r g hfetch hok
          rw [mainFn]
          simp only [hana, hg, if_true]
          decide
      · constructor
        · rw [mainFn]
          simp only [hana, hg, if_false, if_true]
          decide
        · intro data' o r g hfetch hok
          rw [mainFn]
          simp only [hana, hg, if_false, if_true]
          decide

/-- Witness for C8: two good days in dry-run mode print the report and send
nothing. -/
theorem claim_C8_witness :
    Event.attemptSend ∉ (mainFn (.ok goodTwoDays) defaultConfig 0 true false).events
    ∧ (mainFn (.ok goodTwoDays) defaultConfig 0 true false).events ≠ [] :=
  ⟨(claim_C8 (.ok goodTwoDays) defaultConfig 0 false).1,
    (claim_C8 (.ok goodTwoDays) defaultConfig 0 false).2 goodTwoDays
      [(0, 6), (1, 6), (2, 0), (3, 0), (4, 0), (5, 0), (6, 0)]
      [[(0, 6), (1, 6)]] [[(0, 6), (1, 6)]] rfl analyze_goodTwoDays⟩

/-- On a successfully fetched payload with an empty hourly array, the
analyzer error escapes `main` uncaught: the fetch handler does not cover the
analysis call. -/
theorem mainFn_uncaught (data : ForecastData) (cfg : Config) (today : Int)
    (dry sendOk : Bool) (h : data.time = [] ∨ data.windspeed_10m = []) :
    mainFn (.ok data) cfg today dry sendOk = ⟨[], .uncaughtException⟩ := by
  rw [mainFn]
  rw [(analyze_forecast_error_iff data cfg today).mpr h]

/-- Counterexample to C4 as stated: when the fetch succeeds but both hourly
arrays are empty, the process does not print a message and exit with the
fetch-failure status 2; the `ValueError` propagates uncaught (interpreter
status 1, no program output), because `analyze_forecast` is called outside
the `try` block that guards the fetch. -/
theorem claim_C4_counterexample :
    mainFn (.ok emptyData) defaultConfig 0 false true = ⟨[], .uncaughtException⟩
    ∧ exitCode (mainFn (.ok emptyData) defaultConfig 0 false true).outcome ≠ 2
    ∧ (mainFn (.ok emptyData) defaultConfig 0 false true).events = [] := by
  refine ⟨by decide, by decide, by decide⟩

/-- C4 as amended: for every run in which the fetch succeeds but the
forecast response's hourly data arrays are empty, the NoDataError raised by
the Analyzer is NOT caught by the fetch-failure handler: nothing is printed
by the program itself and the process terminates with the interpreter's
unhandled-exception status 1, not with the fetch-failure status 2. -/
theorem claim_C4_amended (data : ForecastData) (cfg : Config) (today : Int)
    (dry sendOk : Bool) (h : data.time = [] ∨ data.windspeed_10m = []) :
    mainFn (.ok data) cfg today dry sendOk = ⟨[], .uncaughtException⟩
    ∧ exitCode (mainFn (.ok data) cfg today dry sendOk).outcome = 1
    ∧ exitCode (mainFn (.ok data) cfg today dry sendOk).outcome ≠ 2 := by
  have hm := mainFn_uncaught data cfg today dry sendOk h
  rw [hm]
  exact ⟨rfl, rfl, by decide⟩

/-- Witness for the amended C4 on a payload with a speed but no
timestamps. -/
theorem claim_C4_witness :
    mainFn (.ok speedsOnly) defaultConfig 4 true false = ⟨[], .uncaughtException⟩
    ∧ exitCode (mainFn (.ok speedsOnly) defaultConfig 4 true false).outcome = 1
    ∧ exitCode (mainFn (.ok speedsOnly) defaultConfig 4 true false).outcome ≠ 2 :=
  claim_C4_amended speedsOnly defaultConfig 4 true false (Or.inl rfl)

/-- Counterexample to C6 as stated: not every invocation ends in one of the
three specified outcomes — a successful fetch whose payload has a timestamp
array but no speeds terminates in a fourth way, by an uncaught exception. -/
theorem claim_C6_counterexample :
    mainFn (.ok timesOnly) defaultConfig 0 false true = ⟨[], .uncaughtException⟩
    ∧ ExitOutcome.uncaughtException ≠ ExitOutcome.success
    ∧ ExitOutcome.uncaughtException ≠ ExitOutcome.fetchFailure
    ∧ ExitOutcome.uncaughtException ≠ ExitOutcome.sendFailure := by
  refine ⟨by decide, by decide, by decide, by decide⟩

/-- C6 as amended: every invocation in which the fetch fails, or the fetch
succeeds and the analysis returns, ends in exactly one of the three
specified outcomes — fetch failure prints and exits 2; no good runs prints
the summary and exits 0; good runs lead to exactly one notification attempt
(or only a printed report in dry-run mode), with a send failure exiting 3 —
while a successful fetch with empty hourly arrays ends in a fourth, abnormal
way: an uncaught exception. -/
theorem claim_C6_amended (fetchRes : Except String ForecastData) (cfg : Config)
    (today : Int) (dry sendOk : Bool) :
    (∀ e, fetchRes = .error e →
        mainFn fetchRes cfg today dry sendOk = ⟨[Event.printFetchFail], .fetchFailure⟩
        ∧ exitCode .fetchFailure = 2)
    ∧ (∀ data, fetchRes = .ok data → (data.time = [] ∨ data.windspeed_10m = []) →
        mainFn fetchRes cfg today dry sendOk = ⟨[], .uncaughtException⟩)
    ∧ (∀ data ordered runs good, fetchRes = .ok data →
        analyze_forecast data cfg today = .ok (ordered, runs, good) →
        (good = [] →
            mainFn fetchRes cfg today dry sendOk = ⟨[Event.printSummary], .success⟩
            ∧ exitCode .success = 0)
        ∧ (good ≠ [] → dry = true →
            mainFn fetchRes cfg today dry sendOk = ⟨[Event.printReport], .success⟩)
        ∧ (good ≠ [] → dry = false →
            ((mainFn fetchRes cfg today dry sendOk).events.count Event.attemptSend = 1
              ∧ (sendOk = true →
                  mainFn fetchRes cfg today dry sendOk
                    = ⟨[Event.attemptSend, Event.printSent], .success⟩)
              ∧ (sendOk = false →
                  mainFn fetchRes cfg today dry sendOk
                    = ⟨[Event.attemptSend, Event.printSendFail], .sendFailure⟩
                  ∧ exitCode .sendFailure = 3)))) := by
  refine ⟨?_, ?_, ?_⟩
  · intro e hf
    subst hf
    exact ⟨rfl, rfl⟩
  · intro data hf hempty
    subst hf
    exact mainFn_uncaught data cfg today dry sendOk hempty
  · intro data ordered runs good hf hana
    subst hf
    have hmain : mainFn (.ok data) cfg today dry sendOk
        = if good.isEmpty then ⟨[Event.printSummary], .success⟩
          else if dry then ⟨[Event.printReport], .success⟩
          else if sendOk then ⟨[Event.attemptSend, Event.printSent], .success⟩
          else ⟨[Event.attemptSend, Event.printSendFail], .sendFailure⟩ := by
      rw [mainFn, hana]
    refine ⟨?_, ?_, ?_⟩
    · intro hg
      subst hg
      rw [hmain]
      exact ⟨rfl, rfl⟩
    · intro hg hdry
      subst hdry
      rw [hmain, if_neg (by simp [List.isEmpty_iff, hg]), if_pos rfl]
    · intro hg hdry
      subst hdry
      rw [hmain, if_neg (by simp [List.isEmpty_iff, hg])]
      simp only [Bool.false_eq_true, if_false]
      cases sendOk with
      | true =>
        refine ⟨by decide, fun _ => rfl, fun hc => Bool.noConfusion hc⟩
      | false =>
        refine ⟨by decide, fun hc => Bool.noConfusion hc, fun _ => ⟨rfl, rfl⟩⟩

/-- Witness for the amended C6: two good days, normal mode, failing send —
exactly one notification attempt and exit status 3. -/
theorem claim_C6_witness :
    (mainFn (.ok goodTwoDays) defaultConfig 0 false false).events.count Event.attemptSend = 1
    ∧ (mainFn (.ok goodTwoDays) defaultConfig 0 false false
        = ⟨[Event.attemptSend, Event.printSendFail], .sendFailure⟩
        ∧ exitCode .sendFailure = 3) := by
  have h := (((claim_C6_amended (.ok goodTwoDays) defaultConfig 0 false false).2.2
      goodTwoDays [(0, 6), (1, 6), (2, 0), (3, 0), (4, 0), (5, 0), (6, 0)]
      [[(0, 6), (1, 6)]] [[(0, 6), (1, 6)]] rfl analyze_goodTwoDays).2.2
      (by decide) rfl)
  exact ⟨h.1, h.2.2 rfl⟩
